import Mathlib

/-!
Verification of the life-expectancy dashboard script `src/model/app.py`.

The script is a single-pass Streamlit application over one pandas
DataFrame.  We shallow-embed the relevant fragment:

* a cell of the table is a string, an exact rational number (standing for
  the numeric values the script manipulates), or NaN;
* a DataFrame is a list of column names together with positional rows;
* `st.error` followed by `st.stop` is embedded as `Except.error msg`
  (the computation halts with a user-visible message), and normal
  continuation as `Except.ok`;
* pandas row filtering (`df[mask]`) is embedded as `List.filter` on the
  rows; `.copy()` returns an independent table with the same contents,
  which in a pure embedding is the identity.
-/

namespace App

/-- A cell of the demographic table: a string label, a numeric value, or
NaN (missing / non-coercible). -/
inductive Cell where
  | str : String → Cell
  | num : ℚ → Cell
  | nan : Cell
deriving DecidableEq, Repr

/-- A row is the list of cell values, positionally aligned with the
column-name list of its DataFrame. -/
abbrev Row := List Cell

/-- The in-memory table `pd.read_csv` produces: column names plus rows. -/
structure DataFrame where
  cols : List String
  rows : List Row
deriving DecidableEq, Repr

/-- `df[c]` for a single row: the cell of row `r` in the column named `c`
(NaN when the column or the cell is absent). -/
def DataFrame.cell (df : DataFrame) (r : Row) (c : String) : Cell :=
  match df.cols.findIdx? (fun c0 => c0 = c) with
  | some i => r.getD i Cell.nan
  | none => Cell.nan

/-- `df.copy()`: an independent table with the same contents.  In the
pure embedding a copy is the value itself. -/
def DataFrame.copy (df : DataFrame) : DataFrame := df

/-- `safe_slider_range` from app.py lines 34-47.  The input series is
the column after `pd.to_numeric(series, errors="coerce")`: `none` is a
cell that coerced to NaN.  `.dropna()` is `filterMap id`; `s.min()` and
`s.max()` are folds of `min`/`max` over the surviving values. -/
def safe_slider_range (series : List (Option ℚ)) : ℚ × ℚ :=
  match series.filterMap id with
  | [] => (0, 1)
  | x :: xs =>
      let mn := xs.foldl min x
      let mx := xs.foldl max x
      if mn = mx then
        let eps := if mn = 0 then 1 else |mn| * (1 / 100)
        (mn - eps, mx + eps)
      else (mn, mx)

/-- The fixed relative path of the input CSV (app.py line 13; the error
message at lines 53-56 spells it out). -/
def DATA_PATH : String := "src/data/processed/demog_clean.csv"

/-- `load_data` from app.py lines 50-59.  The interaction with the file
system is abstracted into two arguments: whether `DATA_PATH.exists()`,
and the table `pd.read_csv` would parse.  A missing file raises
`FileNotFoundError`, embedded as `Except.error` carrying the message;
otherwise the column names are whitespace-stripped. -/
def load_data (fileExists : Bool) (raw : DataFrame) : Except String DataFrame :=
  if fileExists then
    Except.ok { raw with cols := raw.cols.map (fun c => c.trim) }
  else
    Except.error ("No encuentro el archivo: " ++ DATA_PATH ++ "\n" ++
      "Debe existir: src/data/processed/demog_clean.csv")

/-- app.py lines 100-104: `try: df = load_data() except Exception as e:
st.error(str(e)); st.stop()`.  The caught exception becomes a
user-visible error and the script halts: `Except.error` is that halted
state, `Except.ok` the loaded table. -/
def loadStep (fileExists : Bool) (raw : DataFrame) : Except String DataFrame :=
  match load_data fileExists raw with
  | Except.ok df => Except.ok df
  | Except.error e => Except.error e

/-- The alias candidates tried for `region` (app.py line 108). -/
def regionAlts : List String := ["Region", "entity", "Entity", "location", "Location"]

/-- The alias candidates tried for `life_expectancy_total` (app.py line 114). -/
def lifeAlts : List String := ["Life expectancy", "life_expectancy", "value"]

/-- `df.rename(columns=...)` for a single old/new pair: every column
label equal to `old` becomes `new`; rows are positional and unchanged. -/
def DataFrame.rename (df : DataFrame) (old new : String) : DataFrame :=
  { df with cols := df.cols.map (fun c => if c = old then new else c) }

/-- app.py lines 106-117: if `region` is absent, the first present alias
among `regionAlts` is renamed to `region` (the loop breaks after one
rename); then likewise for `life_expectancy_total` with `lifeAlts`. -/
def resolveAliases (df : DataFrame) : DataFrame :=
  let df1 :=
    if "region" ∈ df.cols then df
    else
      match regionAlts.find? (fun a => df.cols.contains a) with
      | some alt => df.rename alt "region"
      | none => df
  if "life_expectancy_total" ∈ df1.cols then df1
  else
    match lifeAlts.find? (fun a => df1.cols.contains a) with
    | some alt => df1.rename alt "life_expectancy_total"
    | none => df1

/-- Python `repr` of a string, as `list(df.columns)` prints it. -/
def pyStrRepr (s : String) : String := "\x27" ++ s ++ "\x27"

/-- Python `repr` of `list(df.columns)` in the error message. -/
def pyListRepr (cols : List String) : String :=
  "[" ++ String.intercalate ", " (cols.map pyStrRepr) ++ "]"

/-- The `st.error` text of app.py lines 121-125, listing the actual
columns of the table. -/
def colErrMsg (cols : List String) : String :=
  "Tu dataset no tiene columnas necesarias.\n\n" ++
    "Columnas actuales: " ++ pyListRepr cols ++ "\n\n" ++
    "Necesito: \x27region\x27 y \x27life_expectancy_total\x27 (o equivalentes)."

/-- app.py lines 106-126: alias resolution followed by the minimal
column check.  If `region` or `life_expectancy_total` is still missing
the script shows `colErrMsg` and stops (`Except.error`); otherwise it
proceeds with the resolved table. -/
def columnCheckStep (df : DataFrame) : Except String DataFrame :=
  let df2 := resolveAliases df
  if "region" ∈ df2.cols ∧ "life_expectancy_total" ∈ df2.cols then
    Except.ok df2
  else
    Except.error (colErrMsg df2.cols)

/-- app.py line 143:
`df_f = df[df["region"].isin(selected_regions)].copy() if selected_regions else df.copy()`.
`selected` is the multiselect value; an empty selection is falsy, so the
whole table is copied. -/
def regionFilter (selected : List Cell) (df : DataFrame) : DataFrame :=
  if selected.isEmpty then df.copy
  else
    DataFrame.copy
      { df with rows := df.rows.filter (fun r => selected.contains (df.cell r "region")) }

/-- One column of a table viewed as a numeric series: `some q` for a
numeric cell, `none` for NaN or a non-numeric cell (which pandas
aggregations skip). -/
def DataFrame.colNum (df : DataFrame) (c : String) : List (Option ℚ) :=
  df.rows.map (fun r =>
    match df.cell r c with
    | Cell.num q => some q
    | _ => none)

/-- `series.mean()` with pandas default `skipna=True`: the arithmetic
mean of the non-NaN values, NaN (`none`) on an empty series. -/
def seriesMean (xs : List (Option ℚ)) : Option ℚ :=
  match xs.filterMap id with
  | [] => none
  | v :: vs => some ((v :: vs).sum / (v :: vs).length)

/-- `series.max()` with `skipna=True`: NaN (`none`) on an empty series. -/
def seriesMax (xs : List (Option ℚ)) : Option ℚ :=
  match xs.filterMap id with
  | [] => none
  | v :: vs => some (vs.foldl max v)

/-- `series.min()` with `skipna=True`: NaN (`none`) on an empty series. -/
def seriesMin (xs : List (Option ℚ)) : Option ℚ :=
  match xs.filterMap id with
  | [] => none
  | v :: vs => some (vs.foldl min v)

/-- app.py lines 151-154: the three metrics shown for the filtered table
are the mean, max and min of its `life_expectancy_total` column. -/
def summaryMetrics (df_f : DataFrame) : Option ℚ × Option ℚ × Option ℚ :=
  (seriesMean (df_f.colNum "life_expectancy_total"),
   seriesMax (df_f.colNum "life_expectancy_total"),
   seriesMin (df_f.colNum "life_expectancy_total"))

/-- Modelled from the spec: the reference arithmetic mean of a list of
values, `sum / count`, against which the displayed mean metric is
checked. -/
def refArithMean (v : List ℚ) : ℚ := v.sum / v.length

/-- Modelled from the spec: `m` is the reference maximum of `v` — a
member of `v` that bounds every member from above. -/
def refIsMax (v : List ℚ) (m : ℚ) : Prop := m ∈ v ∧ ∀ a ∈ v, a ≤ m

/-- Modelled from the spec: `m` is the reference minimum of `v` — a
member of `v` that bounds every member from below. -/
def refIsMin (v : List ℚ) (m : ℚ) : Prop := m ∈ v ∧ ∀ a ∈ v, m ≤ a

/-- pandas dtype test behind `select_dtypes(include="number")`: a column
is numeric when every one of its cells is a number or NaN (a string cell
makes the dtype `object`). -/
def colIsNumeric (df : DataFrame) (c : String) : Bool :=
  df.rows.all (fun r =>
    match df.cell r c with
    | Cell.str _ => false
    | _ => true)

/-- app.py line 177: `num_cols = df_f.select_dtypes(include="number").columns.tolist()`. -/
def numericCols (df : DataFrame) : List String :=
  df.cols.filter (fun c => colIsNumeric df c)

/-- `df_f[selected_cols]`: the sub-table of the selected columns, handed
to `.corr(numeric_only=True)`. -/
def selectCols (df : DataFrame) (cs : List String) : DataFrame :=
  { cols := cs, rows := df.rows.map (fun r => cs.map (fun c => df.cell r c)) }

/-- Outcome of the heatmap section: an informational message with the
computation skipped, or the correlation computed on the selected
sub-table (the Pearson matrix itself is one pandas library call on that
sub-table, so the embedding records its exact input). -/
inductive CorrOutcome where
  | info : String → CorrOutcome
  | heatmap : DataFrame → CorrOutcome
deriving DecidableEq, Repr

/-- app.py lines 177-192: with fewer than two numeric columns, or fewer
than two columns picked in the multiselect, an `st.info` message is
shown and the correlation is skipped; otherwise the matrix is computed
from `df_f[selected_cols]`. -/
def corrStep (df_f : DataFrame) (selected_cols : List String) : CorrOutcome :=
  if (numericCols df_f).length < 2 then
    CorrOutcome.info "No hay suficientes variables numéricas para un heatmap."
  else if selected_cols.length < 2 then
    CorrOutcome.info "Selecciona al menos 2 variables."
  else
    CorrOutcome.heatmap (selectCols df_f selected_cols)

/-- `cell >= bound` in pandas: true only for a numeric cell whose value
is `≥ bound`; comparisons with NaN are false. -/
def Cell.geB : Cell → ℚ → Bool
  | Cell.num q, b => b ≤ q
  | _, _ => false

/-- `cell <= bound` in pandas: true only for a numeric cell whose value
is `≤ bound`; comparisons with NaN are false. -/
def Cell.leB : Cell → ℚ → Bool
  | Cell.num q, b => q ≤ b
  | _, _ => false

/-- app.py line 276:
`df_r = df_f[(df_f[x2] >= xr[0]) & (df_f[x2] <= xr[1]) & (df_f[y2] >= yr[0]) & (df_f[y2] <= yr[1])].copy()`. -/
def rangeFilter (df_f : DataFrame) (x2 y2 : String) (xr yr : ℚ × ℚ) : DataFrame :=
  DataFrame.copy
    { df_f with
      rows := df_f.rows.filter (fun r =>
        (df_f.cell r x2).geB xr.1 && (df_f.cell r x2).leB xr.2 &&
        (df_f.cell r y2).geB yr.1 && (df_f.cell r y2).leB yr.2) }

/-- The script variables live while rendering: the loaded table `df` and
the two derived tables assigned at lines 143 and 276. -/
structure Env where
  df : DataFrame
  df_f : DataFrame
  df_r : DataFrame
deriving DecidableEq, Repr

/-- The assignment statement of app.py line 143: only `df_f` is written. -/
def regionFilterStmt (selected : List Cell) (e : Env) : Env :=
  { e with df_f := regionFilter selected e.df }

/-- The assignment statement of app.py line 276: only `df_r` is written. -/
def rangeFilterStmt (x2 y2 : String) (xr yr : ℚ × ℚ) (e : Env) : Env :=
  { e with df_r := rangeFilter e.df_f x2 y2 xr yr }

/-- Fold of `min` over a list all of whose elements equal the seed. -/
theorem foldl_min_const (v : ℚ) : ∀ xs : List ℚ, (∀ q ∈ xs, q = v) →
    xs.foldl min v = v := by
  intro xs
  induction xs with
  | nil => intro _; rfl
  | cons y ys ih =>
      intro h
      have hy : y = v := h y (List.mem_cons_self y ys)
      have hys : ∀ q ∈ ys, q = v := fun q hq => h q (List.mem_cons_of_mem _ hq)
      simp only [List.foldl_cons, hy, min_self]
      exact ih hys

/-- Fold of `max` over a list all of whose elements equal the seed. -/
theorem foldl_max_const (v : ℚ) : ∀ xs : List ℚ, (∀ q ∈ xs, q = v) →
    xs.foldl max v = v := by
  intro xs
  induction xs with
  | nil => intro _; rfl
  | cons y ys ih =>
      intro h
      have hy : y = v := h y (List.mem_cons_self y ys)
      have hys : ∀ q ∈ ys, q = v := fun q hq => h q (List.mem_cons_of_mem _ hq)
      simp only [List.foldl_cons, hy, max_self]
      exact ih hys

/-- The result of folding `max` is one of the seed or the elements. -/
theorem foldl_max_mem : ∀ (l : List ℚ) (v : ℚ), l.foldl max v ∈ v :: l := by
  intro l
  induction l with
  | nil => intro v; simp
  | cons y ys ih =>
      intro v
      have h := ih (max v y)
      rcases List.mem_cons.mp h with h0 | h0
      · rcases max_choice v y with hv | hy
        · simp only [List.foldl_cons]
          exact List.mem_cons.mpr (Or.inl (h0.trans hv))
        · simp only [List.foldl_cons]
          refine List.mem_cons.mpr (Or.inr ?_)
          exact List.mem_cons.mpr (Or.inl (h0.trans hy))
      · simp only [List.foldl_cons]
        exact List.mem_cons.mpr (Or.inr (List.mem_cons.mpr (Or.inr h0)))

/-- The result of folding `max` bounds the seed and every element. -/
theorem le_foldl_max : ∀ (l : List ℚ) (v : ℚ), ∀ a ∈ v :: l, a ≤ l.foldl max v := by
  intro l
  induction l with
  | nil =>
      intro v a ha
      rcases List.mem_cons.mp ha with h | h
      · exact h.le
      · exact absurd h (List.not_mem_nil a)
  | cons y ys ih =>
      intro v a ha
      simp only [List.foldl_cons]
      rcases List.mem_cons.mp ha with h | h
      · exact h.le.trans (ih (max v y) _ (List.mem_cons_self _ _) |>.trans_eq rfl
          |> fun hx => (le_max_left v y).trans hx)
      · rcases List.mem_cons.mp h with h0 | h0
        · exact h0.le.trans ((le_max_right v y).trans
            (ih (max v y) _ (List.mem_cons_self _ _)))
        · exact ih (max v y) a (List.mem_cons.mpr (Or.inr h0))

/-- The result of folding `min` is one of the seed or the elements. -/
theorem foldl_min_mem : ∀ (l : List ℚ) (v : ℚ), l.foldl min v ∈ v :: l := by
  intro l
  induction l with
  | nil => intro v; simp
  | cons y ys ih =>
      intro v
      have h := ih (min v y)
      rcases List.mem_cons.mp h with h0 | h0
      · rcases min_choice v y with hv | hy
        · simp only [List.foldl_cons]
          exact List.mem_cons.mpr (Or.inl (h0.trans hv))
        · simp only [List.foldl_cons]
          refine List.mem_cons.mpr (Or.inr ?_)
          exact List.mem_cons.mpr (Or.inl (h0.trans hy))
      · simp only [List.foldl_cons]
        exact List.mem_cons.mpr (Or.inr (List.mem_cons.mpr (Or.inr h0)))

/-- The result of folding `min` is below the seed and every element. -/
theorem foldl_min_le : ∀ (l : List ℚ) (v : ℚ), ∀ a ∈ v :: l, l.foldl min v ≤ a := by
  intro l
  induction l with
  | nil =>
      intro v a ha
      rcases List.mem_cons.mp ha with h | h
      · exact h.ge
      · exact absurd h (List.not_mem_nil a)
  | cons y ys ih =>
      intro v a ha
      simp only [List.foldl_cons]
      rcases List.mem_cons.mp ha with h | h
      · exact (ih (min v y) _ (List.mem_cons_self _ _)).trans
          ((min_le_left v y).trans h.ge)
      · rcases List.mem_cons.mp h with h0 | h0
        · exact (ih (min v y) _ (List.mem_cons_self _ _)).trans
            ((min_le_right v y).trans h0.ge)
        · exact ih (min v y) a (List.mem_cons.mpr (Or.inr h0))

/-- A pandas double comparison `cell >= a && cell <= b` holds exactly on
a numeric cell whose value is in the inclusive range. -/
theorem geB_and_leB_iff (c : Cell) (a b : ℚ) :
    (c.geB a = true ∧ c.leB b = true) ↔ ∃ q, c = Cell.num q ∧ a ≤ q ∧ q ≤ b := by
  cases c with
  | str s => simp [Cell.geB, Cell.leB]
  | nan => simp [Cell.geB, Cell.leB]
  | num q =>
      simp only [Cell.geB, Cell.leB, decide_eq_true_eq, Cell.num.injEq]
      constructor
      · intro h
        exact ⟨q, rfl, h.1, h.2⟩
      · rintro ⟨q0, hq, h1, h2⟩
        exact ⟨hq ▸ h1, hq ▸ h2⟩

/-- A one-row sample table used to instantiate the theorems. -/
def dfGlobal : DataFrame :=
  { cols := ["region", "life_expectancy_total"],
    rows := [[Cell.str "Global", Cell.num 73]] }

/-- A three-row sample table with known life-expectancy values. -/
def dfSample : DataFrame :=
  { cols := ["region", "life_expectancy_total"],
    rows := [[Cell.str "Global", Cell.num 70],
             [Cell.str "Europe", Cell.num 80],
             [Cell.str "Africa", Cell.num 60]] }

/-- Claim C7: when the input CSV does not exist at the fixed relative
path, the `FileNotFoundError` raised by `load_data` is caught by the
module-level `try/except`, a user-visible error message naming the path
is displayed, and execution halts (`Except.error`); the embedded step is
total, so no unhandled fault escapes. -/
theorem missing_file_halts (raw : DataFrame) :
    loadStep false raw =
      Except.error ("No encuentro el archivo: " ++ DATA_PATH ++ "\n" ++
        "Debe existir: src/data/processed/demog_clean.csv") := rfl

/-- Claim C2: when, after alias resolution, the table still lacks
`region` or `life_expectancy_total`, the column check displays the
error message listing the actual columns and halts (`Except.error`);
the embedded step is total, so no unhandled fault escapes. -/
theorem missing_columns_halt (df : DataFrame)
    (h : "region" ∉ (resolveAliases df).cols ∨
      "life_expectancy_total" ∉ (resolveAliases df).cols) :
    columnCheckStep df = Except.error (colErrMsg (resolveAliases df).cols) := by
  unfold columnCheckStep
  rw [if_neg]
  intro hc
  rcases h with h | h
  · exact h hc.1
  · exact h hc.2

/-- Witness for C2 at a concrete table lacking both required columns. -/
theorem missing_columns_halt_witness :
    ("region" ∉ (resolveAliases { cols := ["foo", "bar"], rows := [] }).cols ∨
      "life_expectancy_total" ∉
        (resolveAliases { cols := ["foo", "bar"], rows := [] }).cols) ∧
    columnCheckStep { cols := ["foo", "bar"], rows := [] } =
      Except.error (colErrMsg (resolveAliases { cols := ["foo", "bar"], rows := [] }).cols) :=
  ⟨Or.inl (by decide), missing_columns_halt _ (Or.inl (by decide))⟩

/-- Claim C10: with an empty region selection, line 143 takes the falsy
branch and `df_f` is a copy of the whole loaded table, keeping every
row, not the empty table. -/
theorem empty_selection_keeps_all (df : DataFrame) :
    regionFilter [] df = df.copy ∧ (regionFilter [] df).rows = df.rows := ⟨rfl, rfl⟩

/-- Claim C8: the region-filter and range-filter statements write only
`df_f` and `df_r`; the originally loaded table `df` — its rows and its
columns — is unchanged after both (each filter also goes through
`.copy()` before being bound). -/
theorem filters_do_not_mutate_df (e : Env) (selected : List Cell)
    (x2 y2 : String) (xr yr : ℚ × ℚ) :
    (rangeFilterStmt x2 y2 xr yr (regionFilterStmt selected e)).df = e.df ∧
    (regionFilterStmt selected e).df = e.df := ⟨rfl, rfl⟩

/-- Claim C9: a series that is empty, or all of whose values coerce to
NaN, survives `dropna` as the empty series, and `safe_slider_range`
returns the fixed interval `(0, 1)` instead of failing on `min`/`max`
of an empty series. -/
theorem safe_slider_range_empty (series : List (Option ℚ))
    (h : series.filterMap id = []) :
    safe_slider_range series = (0, 1) := by
  unfold safe_slider_range
  rw [h]

/-- Witness for C9 at a concrete all-NaN series. -/
theorem safe_slider_range_empty_witness :
    ([none, none] : List (Option ℚ)).filterMap id = [] ∧
    safe_slider_range [none, none] = (0, 1) :=
  ⟨rfl, safe_slider_range_empty [none, none] rfl⟩

/-- Counterexample to claim C1 as stated: with the empty selection list,
line 143 returns the whole table, not "exactly the rows whose region is
a member of that list" (which would be no rows).  On the one-row table
`dfGlobal` the row survives even though its region is in no empty
list. -/
theorem region_filter_empty_list_cex :
    ¬ (∀ r, r ∈ (regionFilter [] dfGlobal).rows ↔
        r ∈ dfGlobal.rows ∧ dfGlobal.cell r "region" ∈ ([] : List Cell)) := by
  intro h
  have hmem : [Cell.str "Global", Cell.num 73] ∈ (regionFilter [] dfGlobal).rows := by
    simp [regionFilter, DataFrame.copy, dfGlobal]
  exact absurd ((h _).mp hmem).2 (List.not_mem_nil _)

/-- Claim C1 (amended to a nonempty selection list): for every nonempty
list of selected region values, `df_f` consists of exactly the rows of
the loaded table whose `region` cell is a member of the list, the rows
themselves kept verbatim (so every other column is unchanged) and the
column names preserved. -/
theorem region_filter_nonempty (df : DataFrame) (selected : List Cell) (r : Row)
    (h : selected ≠ []) :
    (regionFilter selected df).cols = df.cols ∧
    (r ∈ (regionFilter selected df).rows ↔
      r ∈ df.rows ∧ df.cell r "region" ∈ selected) := by
  unfold regionFilter
  rw [if_neg (by simpa using h)]
  refine ⟨rfl, ?_⟩
  simp [DataFrame.copy, List.mem_filter]

/-- Witness for the amended C1 at a concrete table and selection. -/
theorem region_filter_nonempty_witness :
    ([Cell.str "Global"] : List Cell) ≠ [] ∧
    ((regionFilter [Cell.str "Global"] dfGlobal).cols = dfGlobal.cols ∧
      ([Cell.str "Global", Cell.num 73] ∈ (regionFilter [Cell.str "Global"] dfGlobal).rows ↔
        [Cell.str "Global", Cell.num 73] ∈ dfGlobal.rows ∧
        dfGlobal.cell [Cell.str "Global", Cell.num 73] "region" ∈ [Cell.str "Global"])) :=
  ⟨by decide, region_filter_nonempty dfGlobal [Cell.str "Global"] _ (by decide)⟩

/-- Claim C5: the range filter of line 276 keeps a row exactly when its
`x2` cell is a numeric value inside the inclusive interval `xr` and its
`y2` cell is a numeric value inside the inclusive interval `yr` — a
conjunction of two inclusive range predicates. -/
theorem range_filter_mem (df_f : DataFrame) (x2 y2 : String) (xr yr : ℚ × ℚ) (r : Row) :
    r ∈ (rangeFilter df_f x2 y2 xr yr).rows ↔
      r ∈ df_f.rows ∧
      (∃ qx, df_f.cell r x2 = Cell.num qx ∧ xr.1 ≤ qx ∧ qx ≤ xr.2) ∧
      (∃ qy, df_f.cell r y2 = Cell.num qy ∧ yr.1 ≤ qy ∧ qy ≤ yr.2) := by
  unfold rangeFilter
  simp only [DataFrame.copy, List.mem_filter, Bool.and_eq_true]
  constructor
  · rintro ⟨hr, hb⟩
    exact ⟨hr, (geB_and_leB_iff _ _ _).mp ⟨hb.1.1.1, hb.1.1.2⟩,
      (geB_and_leB_iff _ _ _).mp ⟨hb.1.2, hb.2⟩⟩
  · rintro ⟨hr, hx, hy⟩
    have hbx := (geB_and_leB_iff _ xr.1 xr.2).mpr hx
    have hby := (geB_and_leB_iff _ yr.1 yr.2).mpr hy
    exact ⟨hr, ⟨⟨hbx.1, hbx.2⟩, hby.1⟩, hby.2⟩

/-- Claim C3: on a series whose surviving values are all equal to `v`,
`safe_slider_range` returns the widened interval `(v - eps, v + eps)`
with `eps = 1` when `v = 0` and `eps = |v| / 100` otherwise, and this
interval is non-degenerate: its lower end is strictly below `v` and its
upper end strictly above. -/
theorem safe_slider_range_const (series : List (Option ℚ)) (v : ℚ)
    (hne : series.filterMap id ≠ [])
    (hall : ∀ q ∈ series.filterMap id, q = v) :
    safe_slider_range series =
      (v - (if v = 0 then 1 else |v| * (1 / 100)),
       v + (if v = 0 then 1 else |v| * (1 / 100))) ∧
    (safe_slider_range series).1 < v ∧ v < (safe_slider_range series).2 := by
  obtain ⟨x, xs, hs⟩ := List.exists_cons_of_ne_nil hne
  have hx : x = v := hall x (by rw [hs]; exact List.mem_cons_self x xs)
  have hxs : ∀ q ∈ xs, q = v := fun q hq =>
    hall q (by rw [hs]; exact List.mem_cons_of_mem x hq)
  have hmn : xs.foldl min x = v := by rw [hx]; exact foldl_min_const v xs hxs
  have hmx : xs.foldl max x = v := by rw [hx]; exact foldl_max_const v xs hxs
  have heps : (0 : ℚ) < (if v = 0 then 1 else |v| * (1 / 100)) := by
    by_cases hv : v = 0
    · rw [if_pos hv]; norm_num
    · rw [if_neg hv]
      exact mul_pos (abs_pos.mpr hv) (by norm_num)
  have heq : safe_slider_range series =
      (v - (if v = 0 then 1 else |v| * (1 / 100)),
       v + (if v = 0 then 1 else |v| * (1 / 100))) := by
    unfold safe_slider_range
    rw [hs]
    dsimp only
    rw [hmn, hmx, if_pos rfl]
  refine ⟨heq, ?_, ?_⟩
  · rw [heq]; exact sub_lt_self v heps
  · rw [heq]; exact lt_add_of_pos_right v heps

/-- Witness for C3 at the constant series 50.0 of the spec. -/
theorem safe_slider_range_const_witness :
    (([some 50, some 50] : List (Option ℚ)).filterMap id ≠ [] ∧
      ∀ q ∈ ([some 50, some 50] : List (Option ℚ)).filterMap id, q = 50) ∧
    (safe_slider_range [some 50, some 50] =
      (50 - (if (50 : ℚ) = 0 then 1 else |(50 : ℚ)| * (1 / 100)),
       50 + (if (50 : ℚ) = 0 then 1 else |(50 : ℚ)| * (1 / 100))) ∧
    (safe_slider_range [some 50, some 50]).1 < 50 ∧
      (50 : ℚ) < (safe_slider_range [some 50, some 50]).2) :=
  ⟨⟨by decide, by decide⟩,
    safe_slider_range_const [some 50, some 50] 50 (by decide) (by decide)⟩

/-- Claim C4: the correlation section produces a heatmap — running the
matrix computation on the selected sub-table — exactly when the
filtered table has at least two numeric columns and at least two are
selected; in every other case it shows an informational message and
skips the computation (the embedded step is total, so it cannot fail). -/
theorem corr_guard (df_f : DataFrame) (selected_cols : List String) :
    ((∃ sub, corrStep df_f selected_cols = CorrOutcome.heatmap sub) ↔
      2 ≤ (numericCols df_f).length ∧ 2 ≤ selected_cols.length) ∧
    ((numericCols df_f).length < 2 ∨ selected_cols.length < 2 →
      ∃ msg, corrStep df_f selected_cols = CorrOutcome.info msg) := by
  unfold corrStep
  split_ifs with h1 h2
  · refine ⟨?_, fun _ => ⟨_, rfl⟩⟩
    constructor
    · rintro ⟨sub, hsub⟩
      exact absurd hsub (by simp)
    · intro hc; omega
  · refine ⟨?_, fun _ => ⟨_, rfl⟩⟩
    constructor
    · rintro ⟨sub, hsub⟩
      exact absurd hsub (by simp)
    · intro hc; omega
  · refine ⟨⟨fun _ => ⟨by omega, by omega⟩, fun _ => ⟨_, rfl⟩⟩, ?_⟩
    rintro (hc | hc)
    · exact absurd hc h1
    · exact absurd hc h2

/-- An all-numeric two-column sample table. -/
def dfNum : DataFrame :=
  { cols := ["life_expectancy_total", "gdp_per_capita"],
    rows := [[Cell.num 70, Cell.num 1000], [Cell.num 60, Cell.num 500]] }

/-- Witness for C4 at a concrete table with two numeric columns, both
selected. -/
theorem corr_guard_witness :
    ((∃ sub, corrStep dfNum ["life_expectancy_total", "gdp_per_capita"] =
        CorrOutcome.heatmap sub) ↔
      2 ≤ (numericCols dfNum).length ∧
        2 ≤ (["life_expectancy_total", "gdp_per_capita"] : List String).length) ∧
    ((numericCols dfNum).length < 2 ∨
        (["life_expectancy_total", "gdp_per_capita"] : List String).length < 2 →
      ∃ msg, corrStep dfNum ["life_expectancy_total", "gdp_per_capita"] =
        CorrOutcome.info msg) :=
  corr_guard dfNum ["life_expectancy_total", "gdp_per_capita"]

/-- Claim C6: on a filtered table whose `life_expectancy_total` column
has at least one numeric value, the three displayed metrics are exactly
the reference arithmetic mean (`sum / count`), a reference maximum (a
member bounding all members from above) and a reference minimum (a
member bounding all members from below) of that column's values. -/
theorem summary_metrics_ref (df_f : DataFrame)
    (hne : (df_f.colNum "life_expectancy_total").filterMap id ≠ []) :
    (summaryMetrics df_f).1 =
      some (refArithMean ((df_f.colNum "life_expectancy_total").filterMap id)) ∧
    (∃ m, (summaryMetrics df_f).2.1 = some m ∧
      refIsMax ((df_f.colNum "life_expectancy_total").filterMap id) m) ∧
    (∃ m, (summaryMetrics df_f).2.2 = some m ∧
      refIsMin ((df_f.colNum "life_expectancy_total").filterMap id) m) := by
  obtain ⟨x, xs, hs⟩ := List.exists_cons_of_ne_nil hne
  refine ⟨?_, ?_, ?_⟩
  · show seriesMean (df_f.colNum "life_expectancy_total") =
      some (refArithMean ((df_f.colNum "life_expectancy_total").filterMap id))
    unfold seriesMean refArithMean
    rw [hs]
  · show ∃ m, seriesMax (df_f.colNum "life_expectancy_total") = some m ∧
      refIsMax ((df_f.colNum "life_expectancy_total").filterMap id) m
    unfold seriesMax refIsMax
    rw [hs]
    exact ⟨xs.foldl max x, rfl, foldl_max_mem xs x,
      fun a ha => le_foldl_max xs x a ha⟩
  · show ∃ m, seriesMin (df_f.colNum "life_expectancy_total") = some m ∧
      refIsMin ((df_f.colNum "life_expectancy_total").filterMap id) m
    unfold seriesMin refIsMin
    rw [hs]
    exact ⟨xs.foldl min x, rfl, foldl_min_mem xs x,
      fun a ha => foldl_min_le xs x a ha⟩

/-- Witness for C6 at a concrete three-row table with known values. -/
theorem summary_metrics_ref_witness :
    (dfSample.colNum "life_expectancy_total").filterMap id ≠ [] ∧
    ((summaryMetrics dfSample).1 =
      some (refArithMean ((dfSample.colNum "life_expectancy_total").filterMap id)) ∧
    (∃ m, (summaryMetrics dfSample).2.1 = some m ∧
      refIsMax ((dfSample.colNum "life_expectancy_total").filterMap id) m) ∧
    (∃ m, (summaryMetrics dfSample).2.2 = some m ∧
      refIsMin ((dfSample.colNum "life_expectancy_total").filterMap id) m)) :=
  ⟨by decide, summary_metrics_ref dfSample (by decide)⟩

end App
